import Mathlib

/-!
Verification of the real-time presence / chat fan-out subsystem of the
missedtask backend (`src/api/main.py`, `src/api/websocket_manager.py`).

The Python code is shallowly embedded: Python dicts become association
lists (`Dict α`), JSON-ish scalar values become `Val`, stateful handlers
become pure state-passing functions, and `datetime.utcnow()` becomes an
explicit `now : String` parameter.  Each definition mirrors one Python
function of the source and keeps its name where Lean allows it.
-/

/-- Scalar values that the chat message dicts hold (JSON scalars plus
`datetime.datetime` objects).  `vdatetime` carries an abstract timestamp;
its `isoformat()` rendering is `vdtIso`. -/
inductive Val : Type where
  | vnull : Val
  | vbool : Bool → Val
  | vnum : Int → Val
  | vstr : String → Val
  | vdatetime : Nat → Val
deriving DecidableEq, Repr

open Val

/-- Rendering of Python `str(n)` for a natural number. -/
def natStr (n : Nat) : String :=
  if h : n < 10 then String.singleton (Nat.digitChar n)
  else natStr (n / 10) ++ String.singleton (Nat.digitChar (n % 10))
decreasing_by
  exact Nat.div_lt_self (Nat.lt_of_lt_of_le (by norm_num) (Nat.le_of_not_lt h)) (by norm_num)

/-- Rendering of Python `str(n)` for an integer. -/
def intStr (n : Int) : String :=
  if n < 0 then "-" ++ natStr n.natAbs else natStr n.natAbs

/-- `datetime.isoformat()` of the abstract timestamp carried by `vdatetime`. -/
def vdtIso (t : Nat) : String := "1970-01-01T00:00:" ++ natStr t

/-- Python truthiness (`bool(v)`) of a scalar value. -/
def truthy : Val → Bool
  | vnull => false
  | vbool b => b
  | vnum n => n != 0
  | vstr s => s != ""
  | vdatetime _ => true

/-- Python `str(v)` of a scalar value. -/
def pyStr : Val → String
  | vnull => "None"
  | vbool b => if b then "True" else "False"
  | vnum n => intStr n
  | vstr s => s
  | vdatetime t => vdtIso t

/-- Python `==` on the scalar values (`True == 1`, no cross-type equality
between strings and numbers). -/
def pyValEq : Val → Val → Bool
  | vnull, vnull => true
  | vbool a, vbool b => a == b
  | vbool a, vnum n => (if a then (1 : Int) else 0) == n
  | vnum n, vbool a => n == (if a then (1 : Int) else 0)
  | vnum a, vnum b => a == b
  | vstr a, vstr b => a == b
  | vdatetime a, vdatetime b => a == b
  | _, _ => false

/-- The whitespace characters stripped by Python `str.strip()`. -/
def isPySpace (c : Char) : Bool :=
  c = ' ' || c = '\t' || c = '\n' || c = '\r' || c = '\x0b' || c = '\x0c'

/-- Python `str.strip()` (no arguments): drop leading and trailing whitespace. -/
def pyStrip (s : String) : String :=
  String.mk (((s.data.dropWhile isPySpace).reverse.dropWhile isPySpace).reverse)

/-- Python `a or b` where `a` is an optional string and `b` a string
(`None` and `""` are falsy). -/
def strOr (a : Option String) (b : String) : String :=
  match a with
  | none => b
  | some s => if s = "" then b else s

/-- Python dicts with string keys, embedded as association lists in
insertion order (first occurrence of a key is authoritative; the
operations below keep keys unique when the input keys are unique). -/
abbrev Dict (α : Type) : Type := List (String × α)

/-- `d.get(k)` / `d[k]` lookup. -/
def dget {α : Type} (d : Dict α) (k : String) : Option α :=
  match d with
  | [] => none
  | (k', v) :: t => if k' = k then some v else dget t k

/-- `d[k] = v`: update in place if the key exists, else append. -/
def dset {α : Type} (d : Dict α) (k : String) (v : α) : Dict α :=
  match d with
  | [] => [(k, v)]
  | (k', v') :: t => if k' = k then (k, v) :: t else (k', v') :: dset t k v

/-- `d.pop(k, None)`: remove the key if present. -/
def dpop {α : Type} (d : Dict α) (k : String) : Dict α :=
  match d with
  | [] => []
  | (k', v') :: t => if k' = k then t else (k', v') :: dpop t k

/-- `d.values()` in insertion order. -/
def dvalues {α : Type} (d : Dict α) : List α := d.map (fun e => e.2)

/-- Keys of a dict, for the uniqueness invariant. -/
def dkeys {α : Type} (d : Dict α) : List String := d.map (fun e => e.1)

@[simp] theorem dget_nil {α : Type} (k : String) : dget ([] : Dict α) k = none := rfl

@[simp] theorem dget_cons {α : Type} (e : String × α) (t : Dict α) (k : String) :
    dget (e :: t) k = if e.1 = k then some e.2 else dget t k := by
  cases e
  rfl

@[simp] theorem dset_nil {α : Type} (k : String) (v : α) :
    dset ([] : Dict α) k v = [(k, v)] := rfl

@[simp] theorem dset_cons {α : Type} (e : String × α) (t : Dict α) (k : String) (v : α) :
    dset (e :: t) k v = if e.1 = k then (k, v) :: t else e :: dset t k v := by
  cases e
  rfl

@[simp] theorem dpop_nil {α : Type} (k : String) : dpop ([] : Dict α) k = [] := rfl

@[simp] theorem dpop_cons {α : Type} (e : String × α) (t : Dict α) (k : String) :
    dpop (e :: t) k = if e.1 = k then t else e :: dpop t k := by
  cases e
  rfl

@[simp] theorem dkeys_nil {α : Type} : dkeys ([] : Dict α) = [] := rfl

@[simp] theorem dkeys_cons {α : Type} (e : String × α) (t : Dict α) :
    dkeys (e :: t) = e.1 :: dkeys t := rfl

@[simp] theorem dget_dset_self {α : Type} (d : Dict α) (k : String) (v : α) :
    dget (dset d k v) k = some v := by
  induction d with
  | nil => simp
  | cons e t ih =>
    by_cases h : e.1 = k
    · simp [h]
    · simp [h, ih]

theorem dget_dset_ne {α : Type} (d : Dict α) (k k' : String) (v : α) (h : k ≠ k') :
    dget (dset d k v) k' = dget d k' := by
  induction d with
  | nil => simp [h]
  | cons e t ih =>
    by_cases he : e.1 = k
    · simp [he, h]
    · simp [he, ih]

theorem dset_self {α : Type} (d : Dict α) (k : String) (v : α) (h : dget d k = some v) :
    dset d k v = d := by
  induction d with
  | nil => simp at h
  | cons e t ih =>
    by_cases he : e.1 = k
    · obtain ⟨ek, ev⟩ := e
      simp at he
      subst he
      simp at h
      subst h
      simp
    · simp [he] at h
      simp [he, ih h]

theorem dset_fresh {α : Type} (d : Dict α) (k : String) (v : α) (h : dget d k = none) :
    dset d k v = d ++ [(k, v)] := by
  induction d with
  | nil => simp
  | cons e t ih =>
    by_cases he : e.1 = k
    · simp [he] at h
    · simp [he] at h
      simp [he, ih h]

theorem dpop_of_not_mem {α : Type} (d : Dict α) (k : String) (h : dget d k = none) :
    dpop d k = d := by
  induction d with
  | nil => rfl
  | cons e t ih =>
    by_cases he : e.1 = k
    · simp [he] at h
    · simp [he] at h
      simp [he, ih h]

theorem dget_eq_none_of_not_mem_keys {α : Type} (d : Dict α) (k : String)
    (h : k ∉ dkeys d) : dget d k = none := by
  induction d with
  | nil => rfl
  | cons e t ih =>
    rw [dkeys_cons, List.mem_cons] at h
    push_neg at h
    rw [dget_cons, if_neg (fun he => h.1 he.symm), ih h.2]

theorem dget_dpop_self {α : Type} (d : Dict α) (k : String)
    (hnd : (dkeys d).Nodup) : dget (dpop d k) k = none := by
  induction d with
  | nil => rfl
  | cons e t ih =>
    rw [dkeys_cons, List.nodup_cons] at hnd
    by_cases he : e.1 = k
    · simp only [dpop_cons, he, if_pos]
      exact dget_eq_none_of_not_mem_keys t k (he ▸ hnd.1)
    · simp [he, ih hnd.2]

theorem dget_dpop_ne {α : Type} (d : Dict α) (k k' : String) (h : k ≠ k') :
    dget (dpop d k) k' = dget d k' := by
  induction d with
  | nil => rfl
  | cons e t ih =>
    by_cases he : e.1 = k
    · rw [dpop_cons, if_pos he, dget_cons, if_neg (fun hek => h (he.symm.trans hek))]
    · simp [he, ih]

theorem dkeys_dset {α : Type} (d : Dict α) (k : String) (v v' : α)
    (h : dget d k = some v') : dkeys (dset d k v) = dkeys d := by
  induction d with
  | nil => simp at h
  | cons e t ih =>
    by_cases he : e.1 = k
    · simp [he]
    · simp [he] at h
      simp [he, ih h]

theorem mem_of_dget_eq_some {α : Type} (d : Dict α) (k : String) (v : α)
    (h : dget d k = some v) : (k, v) ∈ d := by
  induction d with
  | nil => simp at h
  | cons e t ih =>
    by_cases he : e.1 = k
    · obtain ⟨ek, ev⟩ := e
      simp at he
      subst he
      simp at h
      subst h
      simp
    · simp [he] at h
      exact List.mem_cons_of_mem _ (ih h)

/-! ## PresenceTracker (`src/api/main.py`, lines 396-413)

`presence_counters : Dict[str, Dict[str, int]]` maps organisation id to a
per-user count of open connections. -/

abbrev Presence : Type := Dict (Dict Nat)

/-- `_increment_presence(organization_id, user_id)` (main.py:396-400).
`setdefault` inserts an empty per-org dict when absent; the per-org dict is
then updated in place. -/
def increment_presence (p : Presence) (organizationId userId : String) :
    Presence × Bool :=
  let org := (dget p organizationId).getD []
  let previous := (dget org userId).getD 0
  (dset p organizationId (dset org userId (previous + 1)), previous == 0)

/-- `_decrement_presence(organization_id, user_id)` (main.py:402-413).
An absent or empty (falsy) per-org dict returns `False` immediately; a
count of at most 1 pops the user entry (and the org entry when it empties)
and reports whether the previous count was positive. -/
def decrement_presence (p : Presence) (organizationId userId : String) :
    Presence × Bool :=
  match dget p organizationId with
  | none => (p, false)
  | some org =>
    if org.isEmpty then (p, false)
    else
      let previous := (dget org userId).getD 0
      if previous ≤ 1 then
        let org' := dpop org userId
        if org'.isEmpty then (dpop p organizationId, decide (0 < previous))
        else (dset p organizationId org', decide (0 < previous))
      else (dset p organizationId (dset org userId (previous - 1)), false)

/-- The connection count recorded for `(organizationId, userId)` (0 when
either entry is absent). -/
def presenceCount (p : Presence) (organizationId userId : String) : Nat :=
  (dget ((dget p organizationId).getD []) userId).getD 0

/-- Well-formedness of the presence table, maintained by the code: keys are
unique (Python dicts), per-org dicts are non-empty, and stored counts are
at least 1 (zero counts are popped, never stored). -/
def PresenceWF (p : Presence) : Prop :=
  (dkeys p).Nodup ∧ ∀ e ∈ p, e.2 ≠ [] ∧ (dkeys e.2).Nodup ∧ ∀ e' ∈ e.2, 1 ≤ e'.2

instance (p : Presence) : Decidable (PresenceWF p) := by
  unfold PresenceWF
  infer_instance

theorem dset_ne_nil {α : Type} (d : Dict α) (k : String) (v : α) :
    dset d k v ≠ [] := by
  cases d with
  | nil => simp
  | cons e t =>
    by_cases he : e.1 = k <;> simp [he]

theorem dpop_sublist {α : Type} (d : Dict α) (k : String) :
    List.Sublist (dpop d k) d := by
  induction d with
  | nil => simp
  | cons e t ih =>
    by_cases he : e.1 = k
    · simp only [dpop_cons, he, if_pos]
      exact List.sublist_cons_of_sublist e (List.Sublist.refl t)
    · simp only [dpop_cons, he, if_neg, ite_false]
      exact List.Sublist.cons₂ e ih

theorem dkeys_nodup_dpop {α : Type} (d : Dict α) (k : String)
    (h : (dkeys d).Nodup) : (dkeys (dpop d k)).Nodup := by
  have hs : List.Sublist (dkeys (dpop d k)) (dkeys d) := by
    simpa [dkeys] using (dpop_sublist d k).map (fun e => e.1)
  exact hs.nodup h

theorem mem_dset {α : Type} (d : Dict α) (k : String) (v : α) (e : String × α)
    (h : e ∈ dset d k v) : e = (k, v) ∨ e ∈ d := by
  induction d with
  | nil => simp at h; simp [h]
  | cons e' t ih =>
    by_cases he : e'.1 = k
    · simp [he] at h
      rcases h with h | h
      · exact Or.inl h
      · exact Or.inr (List.mem_cons_of_mem _ h)
    · simp [he] at h
      rcases h with h | h
      · exact Or.inr (by simp [h])
      · rcases ih h with h' | h'
        · exact Or.inl h'
        · exact Or.inr (List.mem_cons_of_mem _ h')

theorem presenceCount_of_dget (p : Presence) (o u : String) (org : Dict Nat)
    (h : dget p o = some org) : presenceCount p o u = (dget org u).getD 0 := by
  simp [presenceCount, h]

theorem presenceCount_of_none (p : Presence) (o u : String)
    (h : dget p o = none) : presenceCount p o u = 0 := by
  simp [presenceCount, h, dget]

/-- With a well-formed table, a zero count means the user key is absent
from the per-org dict. -/
theorem dget_user_eq_none_of_count_zero (p : Presence) (o u : String) (org : Dict Nat)
    (hwf : PresenceWF p) (h : dget p o = some org)
    (hz : presenceCount p o u = 0) : dget org u = none := by
  rw [presenceCount_of_dget p o u org h] at hz
  cases hu : dget org u with
  | none => rfl
  | some n =>
    have hmem := mem_of_dget_eq_some org u n hu
    have h1 := ((hwf.2 (o, org) (mem_of_dget_eq_some p o org h)).2.2) (u, n) hmem
    simp [hu] at hz
    omega

/-- Core behaviour of `_decrement_presence` on a well-formed table:
the boolean is `true` iff the count was exactly 1, a zero count is a
full no-op, and a positive count decreases by exactly one. -/
theorem decrement_presence_core (p : Presence) (o u : String) (hwf : PresenceWF p) :
    ((decrement_presence p o u).2 = true ↔ presenceCount p o u = 1) ∧
    (presenceCount p o u = 0 → (decrement_presence p o u).1 = p) ∧
    (1 ≤ presenceCount p o u →
      presenceCount (decrement_presence p o u).1 o u = presenceCount p o u - 1) := by
  cases horg : dget p o with
  | none =>
    rw [presenceCount_of_none p o u horg]
    simp [decrement_presence, horg]
  | some org =>
    have hORG := hwf.2 (o, org) (mem_of_dget_eq_some p o org horg)
    have hne : org.isEmpty = false := by
      cases org with
      | nil => exact absurd rfl hORG.1
      | cons e t => rfl
    have hcnt := presenceCount_of_dget p o u org horg
    cases hu : dget org u with
    | none =>
      -- absent user: previous count is 0, pop is a no-op, `dset` restores `p`
      have hz : presenceCount p o u = 0 := by simp [hcnt, hu]
      have hpop : dpop org u = org := dpop_of_not_mem org u hu
      refine ⟨?_, ?_, ?_⟩ <;>
        simp [decrement_presence, horg, hne, hu, hpop, hz, dset_self p o org horg]
    | some n =>
      have h1 : 1 ≤ n := (hORG.2.2) (u, n) (mem_of_dget_eq_some org u n hu)
      have hcn : presenceCount p o u = n := by simp [hcnt, hu]
      by_cases hle : n ≤ 1
      · -- previous count exactly 1: entry is popped, count reaches 0
        have hn1 : n = 1 := le_antisymm hle h1
        have hnone : dget (dpop org u) u = none := dget_dpop_self org u hORG.2.1
        have h2 : (decrement_presence p o u).2 = decide (0 < n) := by
          simp only [decrement_presence, horg, hne, hu, Option.getD_some, hle, if_true,
            Bool.false_eq_true, if_false]
          split <;> rfl
        constructor
        · simp [h2, hcn, hn1]
        constructor
        · intro hz
          rw [hcn] at hz
          omega
        · intro _
          by_cases hemp : (dpop org u).isEmpty
          · have : dget (dpop p o) o = none := dget_dpop_self p o hwf.1
            simp [decrement_presence, horg, hne, hu, hle, hemp,
              presenceCount_of_none _ o u this, hcn, hn1]
          · have : dget (dset p o (dpop org u)) o = some (dpop org u) :=
              dget_dset_self p o (dpop org u)
            simp [decrement_presence, horg, hne, hu, hle, hemp,
              presenceCount_of_dget _ o u _ this, hnone, hcn, hn1]
      · -- previous count at least 2: stored count decreases by one
        have hsome : dget (dset p o (dset org u (n - 1))) o = some (dset org u (n - 1)) :=
          dget_dset_self p o (dset org u (n - 1))
        constructor
        · simp [decrement_presence, horg, hne, hu, hle, hcn]
          omega
        constructor
        · intro hz
          rw [hcn] at hz
          omega
        · intro _
          simp [decrement_presence, horg, hne, hu, hle,
            presenceCount_of_dget _ o u _ hsome, hcn]

/-- `_decrement_presence` preserves well-formedness of the presence table. -/
theorem PresenceWF_decrement (p : Presence) (o u : String) (hwf : PresenceWF p) :
    PresenceWF (decrement_presence p o u).1 := by
  cases horg : dget p o with
  | none => simpa [decrement_presence, horg] using hwf
  | some org =>
    have hORG := hwf.2 (o, org) (mem_of_dget_eq_some p o org horg)
    have hne : org.isEmpty = false := by
      cases org with
      | nil => exact absurd rfl hORG.1
      | cons e t => rfl
    cases hu : dget org u with
    | none =>
      have hpop : dpop org u = org := dpop_of_not_mem org u hu
      simpa [decrement_presence, horg, hne, hu, hpop, dset_self p o org horg] using hwf
    | some n =>
      by_cases hle : n ≤ 1
      · by_cases hemp : (dpop org u).isEmpty
        · -- the whole org entry is removed; sublists keep the invariant
          simp only [decrement_presence, horg, hne, hu, Option.getD_some, hle, if_pos,
            Bool.false_eq_true, if_false, hemp, if_true]
          refine ⟨dkeys_nodup_dpop p o hwf.1, ?_⟩
          intro e he
          exact hwf.2 e ((dpop_sublist p o).subset he)
        · simp only [decrement_presence, horg, hne, hu, Option.getD_some, hle, if_pos,
            Bool.false_eq_true, if_false, hemp]
          constructor
          · rw [dkeys_dset p o (dpop org u) org horg]
            exact hwf.1
          · intro e he
            rcases mem_dset p o (dpop org u) e he with he' | he'
            · subst he'
              refine ⟨by simpa [List.isEmpty_iff] using hemp,
                dkeys_nodup_dpop org u hORG.2.1, ?_⟩
              intro e' he''
              exact hORG.2.2 e' ((dpop_sublist org u).subset he'')
            · exact hwf.2 e he'
      · simp only [decrement_presence, horg, hne, hu, Option.getD_some, hle,
          Bool.false_eq_true, if_false]
        constructor
        · rw [dkeys_dset p o (dset org u (n - 1)) org horg]
          exact hwf.1
        · intro e he
          rcases mem_dset p o (dset org u (n - 1)) e he with he' | he'
          · subst he'
            refine ⟨dset_ne_nil org u (n - 1), ?_, ?_⟩
            · rw [dkeys_dset org u (n - 1) n hu]
              exact hORG.2.1
            · intro e' he''
              rcases mem_dset org u (n - 1) e' he'' with h2 | h2
              · subst h2
                simp
                omega
              · exact hORG.2.2 e' h2
          · exact hwf.2 e he'

/-! ## ConnectionHub (`src/api/main.py`, lines 433-458)

`active_chat_connections : Dict[str, List[dict]]` keyed by organisation id;
websocket transport handles are modelled by a numeric identity. -/

/-- One entry of `active_chat_connections[org]` (main.py:437-442). -/
structure ConnInfo : Type where
  websocket : Nat
  user_id : String
  user_name : String
  user_avatar : String
deriving DecidableEq, Repr

abbrev ChatConnections : Type := Dict (List ConnInfo)

/-- `add_chat_connection(organization_id, websocket, user_data)`
(main.py:433-445): append the handle and increment presence, surfacing the
first-connection boolean. -/
def add_chat_connection (acc : ChatConnections) (p : Presence)
    (organizationId : String) (ws : Nat) (userId userName userAvatar : String) :
    ChatConnections × Presence × Bool :=
  let conns := (dget acc organizationId).getD []
  let acc' := dset acc organizationId (conns ++ [⟨ws, userId, userName, userAvatar⟩])
  let r := increment_presence p organizationId userId
  (acc', r.1, r.2)

/-- The connection-table half of `remove_chat_connection` (main.py:448-457):
drop every entry holding this websocket; an emptied org list is popped. -/
def removeConnEntry (acc : ChatConnections) (organizationId : String) (ws : Nat) :
    ChatConnections :=
  match dget acc organizationId with
  | none => acc
  | some conns =>
    let remaining := conns.filter (fun c => c.websocket ≠ ws)
    if remaining.isEmpty then dpop acc organizationId
    else dset acc organizationId remaining

/-- `remove_chat_connection(organization_id, websocket, user_id)`
(main.py:447-458): remove the handle, then unconditionally call
`_decrement_presence` and surface its boolean. -/
def remove_chat_connection (acc : ChatConnections) (p : Presence)
    (organizationId : String) (ws : Nat) (userId : String) :
    ChatConnections × Presence × Bool :=
  let acc' := removeConnEntry acc organizationId ws
  let r := decrement_presence p organizationId userId
  (acc', r.1, r.2)

theorem removeConnEntry_idem (acc : ChatConnections) (o : String) (ws : Nat)
    (hacc : (dkeys acc).Nodup) :
    removeConnEntry (removeConnEntry acc o ws) o ws = removeConnEntry acc o ws := by
  cases h : dget acc o with
  | none =>
    have h1 : removeConnEntry acc o ws = acc := by
      unfold removeConnEntry
      simp only [h]
    rw [h1, h1]
  | some conns =>
    have hfil : (conns.filter (fun c => c.websocket ≠ ws)).filter
        (fun c => c.websocket ≠ ws) = conns.filter (fun c => c.websocket ≠ ws) :=
      List.filter_eq_self.mpr (fun a ha => (List.mem_filter.mp ha).2)
    by_cases hemp : (conns.filter (fun c => c.websocket ≠ ws)).isEmpty = true
    · have h1 : removeConnEntry acc o ws = dpop acc o := by
        unfold removeConnEntry
        simp only [h]
        split
        next => rfl
        next hcond => exact absurd hemp hcond
      have h2 : dget (dpop acc o) o = none := dget_dpop_self acc o hacc
      have h3 : removeConnEntry (dpop acc o) o ws = dpop acc o := by
        unfold removeConnEntry
        simp only [h2]
      rw [h1, h3]
    · have h1 : removeConnEntry acc o ws =
          dset acc o (conns.filter (fun c => c.websocket ≠ ws)) := by
        unfold removeConnEntry
        simp only [h]
        split
        next hcond => exact absurd hcond hemp
        next => rfl
      have h3 : removeConnEntry (dset acc o (conns.filter (fun c => c.websocket ≠ ws))) o ws
          = dset acc o (conns.filter (fun c => c.websocket ≠ ws)) := by
        unfold removeConnEntry
        simp only [dget_dset_self, hfil]
        split
        next hcond => exact absurd hcond hemp
        next => exact dset_self _ o _ (dget_dset_self acc o _)
      rw [h1, h3]

/-- C3: `_increment_presence` returns `true` iff the count for the pair was
0 (or absent) immediately before the call, and afterwards the count is one
greater than before.  Quantifying over every presence table covers every
prior sequence of increments and decrements. -/
theorem claim_C3_increment_presence (p : Presence) (o u : String) :
    ((increment_presence p o u).2 = true ↔ presenceCount p o u = 0) ∧
    presenceCount (increment_presence p o u).1 o u = presenceCount p o u + 1 := by
  constructor
  · simp [increment_presence, presenceCount]
  · simp [increment_presence, presenceCount]

/-- C4: on a well-formed presence table, `_decrement_presence` returns
`true` iff the count was exactly 1 before the call; decrementing an absent
or zero entry leaves the table unchanged and returns `false`; and for a
user with two open connections the first removal returns `false` while the
second returns `true`. -/
theorem claim_C4_decrement_presence (p : Presence) (o u : String)
    (hwf : PresenceWF p) :
    ((decrement_presence p o u).2 = true ↔ presenceCount p o u = 1) ∧
    (presenceCount p o u = 0 →
      (decrement_presence p o u).1 = p ∧ (decrement_presence p o u).2 = false) ∧
    (presenceCount p o u = 2 →
      (decrement_presence p o u).2 = false ∧
      (decrement_presence (decrement_presence p o u).1 o u).2 = true) := by
  obtain ⟨hiff, hzero, hcount⟩ := decrement_presence_core p o u hwf
  refine ⟨hiff, ?_, ?_⟩
  · intro hz
    have hf : (decrement_presence p o u).2 = false := by
      cases hb : (decrement_presence p o u).2
      · rfl
      · exfalso
        have := hiff.1 hb
        omega
    exact ⟨hzero hz, hf⟩
  · intro h2
    have hwf' := PresenceWF_decrement p o u hwf
    have hc' : presenceCount (decrement_presence p o u).1 o u = 1 := by
      rw [hcount (by omega), h2]
    obtain ⟨hiff', _, _⟩ := decrement_presence_core (decrement_presence p o u).1 o u hwf'
    have hf : (decrement_presence p o u).2 = false := by
      cases hb : (decrement_presence p o u).2
      · rfl
      · exfalso
        have := hiff.1 hb
        omega
    exact ⟨hf, hiff'.2 hc'⟩

/-- Witness for C4: in org `o`, user `u` has two open connections; the
first decrement returns `false` and the second returns `true`. -/
theorem claim_C4_decrement_presence_witness :
    (decrement_presence [("o", [("u", 2)])] "o" "u").2 = false ∧
    (decrement_presence (decrement_presence [("o", [("u", 2)])] "o" "u").1 "o" "u").2 = true :=
  (claim_C4_decrement_presence [("o", [("u", 2)])] "o" "u" (by decide)).2.2 (by decide)

/-- C5 counterexample: user "u1" opens two sockets (1 and 2) in "org1";
socket 1 is unregistered twice.  The duplicate call leaves the connection
table alone but decrements presence again: the count drops from 1 to 0 and
the duplicate call even reports that the user went offline.  This refutes
the claimed idempotence of unregistration. -/
theorem claim_C5_counterexample :
    (let s0 := add_chat_connection [] [] "org1" 1 "u1" "U" "a"
     let s1 := add_chat_connection s0.1 s0.2.1 "org1" 2 "u1" "U" "a"
     let r1 := remove_chat_connection s1.1 s1.2.1 "org1" 1 "u1"
     let r2 := remove_chat_connection r1.1 r1.2.1 "org1" 1 "u1"
     r2.1 = r1.1 ∧
     presenceCount r1.2.1 "org1" "u1" = 1 ∧
     presenceCount r2.2.1 "org1" "u1" = 0 ∧
     r2.2.1 ≠ r1.2.1 ∧
     r2.2.2 = true) := by
  decide

/-- C5 (amended): a duplicate `remove_chat_connection` call with the same
websocket leaves the connection tables exactly as after the first call,
but it does not leave the presence counts unchanged: it decrements the
user's count again whenever that count is still positive. -/
theorem claim_C5_remove_chat_connection_amended (acc : ChatConnections)
    (p : Presence) (o : String) (ws : Nat) (u : String)
    (hacc : (dkeys acc).Nodup) (hwf : PresenceWF p) :
    (remove_chat_connection (remove_chat_connection acc p o ws u).1
        (remove_chat_connection acc p o ws u).2.1 o ws u).1
      = (remove_chat_connection acc p o ws u).1 ∧
    (1 ≤ presenceCount (remove_chat_connection acc p o ws u).2.1 o u →
      presenceCount (remove_chat_connection (remove_chat_connection acc p o ws u).1
          (remove_chat_connection acc p o ws u).2.1 o ws u).2.1 o u
        = presenceCount (remove_chat_connection acc p o ws u).2.1 o u - 1) := by
  constructor
  · exact removeConnEntry_idem acc o ws hacc
  · intro hpos
    exact (decrement_presence_core (decrement_presence p o u).1 o u
      (PresenceWF_decrement p o u hwf)).2.2 hpos

/-- Witness for the amended C5 at the two-socket state of the
counterexample. -/
theorem claim_C5_remove_chat_connection_amended_witness :
    (remove_chat_connection (remove_chat_connection
        [("org1", [⟨1, "u1", "U", "a"⟩, ⟨2, "u1", "U", "a"⟩])]
        [("org1", [("u1", 2)])] "org1" 1 "u1").1
      (remove_chat_connection
        [("org1", [⟨1, "u1", "U", "a"⟩, ⟨2, "u1", "U", "a"⟩])]
        [("org1", [("u1", 2)])] "org1" 1 "u1").2.1 "org1" 1 "u1").1
      = (remove_chat_connection
        [("org1", [⟨1, "u1", "U", "a"⟩, ⟨2, "u1", "U", "a"⟩])]
        [("org1", [("u1", 2)])] "org1" 1 "u1").1 ∧
    (1 ≤ presenceCount (remove_chat_connection
        [("org1", [⟨1, "u1", "U", "a"⟩, ⟨2, "u1", "U", "a"⟩])]
        [("org1", [("u1", 2)])] "org1" 1 "u1").2.1 "org1" "u1" →
      presenceCount (remove_chat_connection (remove_chat_connection
          [("org1", [⟨1, "u1", "U", "a"⟩, ⟨2, "u1", "U", "a"⟩])]
          [("org1", [("u1", 2)])] "org1" 1 "u1").1
        (remove_chat_connection
          [("org1", [⟨1, "u1", "U", "a"⟩, ⟨2, "u1", "U", "a"⟩])]
          [("org1", [("u1", 2)])] "org1" 1 "u1").2.1 "org1" 1 "u1").2.1 "org1" "u1"
        = presenceCount (remove_chat_connection
          [("org1", [⟨1, "u1", "U", "a"⟩, ⟨2, "u1", "U", "a"⟩])]
          [("org1", [("u1", 2)])] "org1" 1 "u1").2.1 "org1" "u1" - 1) :=
  claim_C5_remove_chat_connection_amended
    [("org1", [⟨1, "u1", "U", "a"⟩, ⟨2, "u1", "U", "a"⟩])]
    [("org1", [("u1", 2)])] "org1" 1 "u1" (by decide) (by decide)

/-! ## ConnectionManager (`src/api/websocket_manager.py`)

The DB-backed chat stack keeps one websocket per user plus an ephemeral
typing-state table `typing_users : Dict[str, Set[str]]`.  Python sets are
modelled as duplicate-free lists (`add` appends when absent, `discard`
filters). -/

structure ConnectionManager : Type where
  active_connections : Dict Nat
  user_organizations : Dict String
  typing_users : Dict (List String)
deriving Repr

/-- `ConnectionManager.disconnect(user_id)` (websocket_manager.py:40-58):
drop the connection and org entries and `discard` the user from every
conversation's typing set; returns the organisation id that was stored,
if any. -/
def ConnectionManager.disconnect (m : ConnectionManager) (userId : String) :
    ConnectionManager × Option String :=
  let ac := dpop m.active_connections userId
  let org := dget m.user_organizations userId
  let uo := dpop m.user_organizations userId
  let tu := m.typing_users.map (fun e => (e.1, e.2.filter (fun x => x ≠ userId)))
  (⟨ac, uo, tu⟩, org)

/-- `ConnectionManager.set_typing_status(conversation_id, user_id, is_typing)`
(websocket_manager.py:108-116): ensure the conversation has a typing set,
then add or discard the user. -/
def ConnectionManager.set_typing_status (m : ConnectionManager)
    (conversationId userId : String) (isTyping : Bool) : ConnectionManager :=
  let s := (dget m.typing_users conversationId).getD []
  let s' := if isTyping then (if s.contains userId then s else s ++ [userId])
            else s.filter (fun x => x ≠ userId)
  { m with typing_users := dset m.typing_users conversationId s' }

/-- `ConnectionManager.get_typing_users(conversation_id)`
(websocket_manager.py:118-120). -/
def ConnectionManager.get_typing_users (m : ConnectionManager)
    (conversationId : String) : List String :=
  (dget m.typing_users conversationId).getD []

/-- C6: after `disconnect(u)` completes, `u` is absent from the typing set
of every conversation, whatever typing events preceded the disconnect
(the state `m` ranges over all reachable and unreachable manager states,
including any produced by `set_typing_status` calls without a stop-typing
event). -/
theorem claim_C6_disconnect_clears_typing (m : ConnectionManager)
    (u : String) (c : String) :
    u ∉ ((m.disconnect u).1.get_typing_users c) := by
  unfold ConnectionManager.disconnect ConnectionManager.get_typing_users
  simp only []
  induction m.typing_users with
  | nil => simp
  | cons e t ih =>
    by_cases he : e.1 = c
    · simp [he]
    · simpa [he] using ih

/-! ## Message dicts and `normalize_message_record` (main.py:694-763)

A message dict is modelled with one field per key that the chat code
reads or writes; `none` is an absent key, `some vnull` an explicit JSON
null (both read as Python `None` through `.get`, but only `none` is
"not in message"). -/

structure MsgRec : Type where
  id : Option Val := none
  content : Option Val := none
  author_id : Option Val := none
  author_name : Option Val := none
  author_avatar : Option Val := none
  sender_id : Option Val := none
  sender_name : Option Val := none
  sender_avatar : Option Val := none
  sender_profile_picture : Option Val := none
  conversation_id : Option Val := none
  created_at : Option Val := none
  updated_at : Option Val := none
  type : Option Val := none
  message_type : Option Val := none
  edited : Option Val := none
  is_edited : Option Val := none
  reply_to : Option Val := none
  parent_message_id : Option Val := none
deriving DecidableEq, Repr

/-- `message.get(k)`: an explicit null reads as `None`, like an absent key. -/
def pyGet (o : Option Val) : Option Val :=
  match o with
  | some vnull => none
  | x => x

/-- Python truthiness of a `.get` result (`None` is falsy). -/
def truthyOpt (o : Option Val) : Bool :=
  match o with
  | none => false
  | some v => truthy v

/-- One pair of the sender/author alias loop (main.py:706-718): copy the
legacy value to the missing new key or vice versa.  Returns the new
`sender*` field, the new `author*` field, and whether one was written. -/
def syncAlias (newF legacyF : Option Val) : Option Val × Option Val × Bool :=
  let nv := pyGet newF
  let lv := pyGet legacyF
  if nv.isNone && lv.isSome then (lv, legacyF, true)
  else if lv.isNone && nv.isSome then (newF, nv, true)
  else (newF, legacyF, false)

/-- The message-type block (main.py:720-734).  Returns the new
`message_type` and `type` fields and whether one was written.  Note that
a present-but-truthy non-string `message_type` is kept as stored; only
the local string is coerced with `str`. -/
def normTypeFields (mtF tyF : Option Val) : Option Val × Option Val × Bool :=
  if !truthyOpt (pyGet mtF) then
    let lt := pyGet tyF
    let mtStr :=
      if truthyOpt lt && !pyValEq (lt.getD vnull) (vstr "message")
          && !pyValEq (lt.getD vnull) (vstr "text")
      then pyStr (lt.getD vnull) else "text"
    if !truthyOpt (pyGet tyF) then (some (vstr mtStr), some (vstr mtStr), true)
    else (some (vstr mtStr), tyF, true)
  else
    if !truthyOpt (pyGet tyF) then
      (mtF, some (vstr (pyStr ((pyGet mtF).getD vnull))), true)
    else (mtF, tyF, false)

/-- The edited block (main.py:736-742); uses key membership (`in`), so an
explicit null `edited` counts as present. -/
def normEdited (editedF is_editedF : Option Val) : Option Val × Bool :=
  if editedF.isNone && is_editedF.isSome then
    (some (vbool (truthyOpt is_editedF)), true)
  else if editedF.isNone then (some (vbool false), true)
  else (editedF, false)

/-- The reply-to block (main.py:744-747). -/
def normReply (replyF parentF : Option Val) : Option Val × Bool :=
  if replyF.isNone && truthyOpt parentF then (pyGet parentF, true)
  else (replyF, false)

/-- The created_at block (main.py:749-756); `now` stands for
`datetime.utcnow().isoformat()` at call time. -/
def normCreatedAt (createdF : Option Val) (now : String) : Option Val × Bool :=
  match createdF with
  | some (vdatetime t) => (some (vstr (vdtIso t)), true)
  | _ => if !truthyOpt createdF then (some (vstr now), true) else (createdF, false)

/-- The updated_at block (main.py:758-761). -/
def normUpdatedAt (updatedF : Option Val) : Option Val × Bool :=
  match updatedF with
  | some (vdatetime t) => (some (vstr (vdtIso t)), true)
  | _ => (updatedF, false)

/-- `normalize_message_record(message)` (main.py:694-763): the blocks
above applied in source order (they touch pairwise disjoint keys), with
the `updated` flag as the disjunction of the per-block flags. -/
def normalize_message_record (m : MsgRec) (now : String) : MsgRec × Bool :=
  let a1 := syncAlias m.sender_id m.author_id
  let a2 := syncAlias m.sender_name m.author_name
  let a3 := syncAlias m.sender_avatar m.author_avatar
  let ty := normTypeFields m.message_type m.type
  let ed := normEdited m.edited m.is_edited
  let rp := normReply m.reply_to m.parent_message_id
  let ca := normCreatedAt m.created_at now
  let ua := normUpdatedAt m.updated_at
  ({ m with
      sender_id := a1.1, author_id := a1.2.1,
      sender_name := a2.1, author_name := a2.2.1,
      sender_avatar := a3.1, author_avatar := a3.2.1,
      message_type := ty.1, type := ty.2.1,
      edited := ed.1,
      reply_to := rp.1,
      created_at := ca.1,
      updated_at := ua.1 },
   a1.2.2 || a2.2.2 || a3.2.2 || ty.2.2 || ed.2 || rp.2 || ca.2 || ua.2)

theorem pyGet_idem (o : Option Val) : pyGet (pyGet o) = pyGet o := by
  rcases o with _ | v
  · rfl
  · cases v <;> rfl

theorem truthyOpt_pyGet (o : Option Val) : truthyOpt (pyGet o) = truthyOpt o := by
  rcases o with _ | v
  · rfl
  · cases v <;> rfl

theorem pyGet_eq_self_of_truthy (o : Option Val) (h : truthyOpt o = true) :
    pyGet o = o := by
  rcases o with _ | v
  · rfl
  · cases v <;> first | rfl | simp [truthyOpt, truthy] at h

theorem natStr_ne_empty (n : Nat) : natStr n ≠ "" := by
  intro h
  have : (natStr n).length = 0 := by rw [h]; rfl
  rw [natStr] at this
  split at this
  · simp [String.singleton] at this
  · rw [String.length_append] at this
    simp [String.singleton] at this

theorem truthy_pyStr_ne_empty (v : Val) (h : truthy v = true) : pyStr v ≠ "" := by
  cases v with
  | vnull => simp [truthy] at h
  | vbool b =>
    cases b
    · simp [truthy] at h
    · simp [pyStr]
  | vnum n =>
    simp only [pyStr, intStr]
    split
    · intro hc
      have h0 : ("-" ++ natStr n.natAbs).length = 0 := by rw [hc]; rfl
      rw [String.length_append] at h0
      have h1 : 0 < ("-" : String).length := by decide
      omega
    · exact natStr_ne_empty n.natAbs
  | vstr s => simpa [truthy] using h
  | vdatetime t =>
    simp only [pyStr, vdtIso]
    intro hc
    have h0 : ("1970-01-01T00:00:" ++ natStr t).length = 0 := by rw [hc]; rfl
    rw [String.length_append] at h0
    have h1 : 0 < ("1970-01-01T00:00:" : String).length := by decide
    omega

theorem vdtIso_ne_empty (t : Nat) : vdtIso t ≠ "" := by
  simp only [vdtIso]
  intro hc
  have h0 : ("1970-01-01T00:00:" ++ natStr t).length = 0 := by rw [hc]; rfl
  rw [String.length_append] at h0
  have h1 : 0 < ("1970-01-01T00:00:" : String).length := by decide
  omega

theorem truthyOpt_getD (o : Option Val) (h : truthyOpt o = true) :
    truthy (o.getD vnull) = true := by
  rcases o with _ | v
  · simp [truthyOpt] at h
  · simpa [truthyOpt] using h

theorem isNone_pyGet_of_truthy (o : Option Val) (h : truthyOpt o = true) :
    (pyGet o).isNone = false := by
  rcases o with _ | v
  · simp [truthyOpt] at h
  · cases v <;> simp_all [truthyOpt, truthy, pyGet]

theorem syncAlias_idem (n l : Option Val) :
    syncAlias (syncAlias n l).1 (syncAlias n l).2.1
      = ((syncAlias n l).1, (syncAlias n l).2.1, false) := by
  rcases hn : pyGet n with _ | nv <;> rcases hl : pyGet l with _ | lv
  · simp [syncAlias, hn, hl]
  · have h1 : pyGet (some lv) = some lv := by
      have h2 := pyGet_idem l
      rw [hl] at h2
      exact h2
    simp [syncAlias, hn, hl, h1]
  · have h1 : pyGet (some nv) = some nv := by
      have h2 := pyGet_idem n
      rw [hn] at h2
      exact h2
    simp [syncAlias, hn, hl, h1]
  · simp [syncAlias, hn, hl]

theorem normTypeFields_idem (mt ty : Option Val) :
    normTypeFields (normTypeFields mt ty).1 (normTypeFields mt ty).2.1
      = ((normTypeFields mt ty).1, (normTypeFields mt ty).2.1, false) := by
  have hvs : ∀ s : String, s ≠ "" →
      truthyOpt (pyGet (some (vstr s))) = true := by
    intro s hs
    simpa [pyGet, truthyOpt, truthy] using hs
  by_cases hmt : truthyOpt (pyGet mt) = true
  · by_cases hty : truthyOpt (pyGet ty) = true
    · simp [normTypeFields, hmt, hty]
    · have hstr : pyStr ((pyGet mt).getD vnull) ≠ "" :=
        truthy_pyStr_ne_empty _ (truthyOpt_getD _ hmt)
      simp [normTypeFields, hmt, hty, hvs _ hstr]
  · by_cases hcond : (truthyOpt (pyGet ty)
        && !pyValEq ((pyGet ty).getD vnull) (vstr "message")
        && !pyValEq ((pyGet ty).getD vnull) (vstr "text")) = true
    · have hcond' := hcond
      simp only [Bool.and_eq_true, Bool.not_eq_true'] at hcond'
      have hty' : truthyOpt (pyGet ty) = true := hcond'.1.1
      have hstr : pyStr ((pyGet ty).getD vnull) ≠ "" :=
        truthy_pyStr_ne_empty _ (truthyOpt_getD _ hty')
      simp [normTypeFields, hmt, hcond'.1.1, hcond'.1.2, hcond'.2, hty', hvs _ hstr]
    · have hcond' := hcond
      simp only [Bool.and_eq_true, Bool.not_eq_true'] at hcond'
      by_cases hty : truthyOpt (pyGet ty) = true
      · have hstr : pyStr ((pyGet ty).getD vnull) ≠ "" :=
          truthy_pyStr_ne_empty _ (truthyOpt_getD _ hty)
        have hifne : (if pyValEq ((pyGet ty).getD vnull) (vstr "message") = false ∧
              pyValEq ((pyGet ty).getD vnull) (vstr "text") = false then
            pyStr ((pyGet ty).getD vnull) else "text") ≠ "" := by
          split
          · exact hstr
          · decide
        simp [normTypeFields, hmt, hcond', hty, hvs _ hifne, hvs "text" (by decide)]
      · simp [normTypeFields, hmt, hcond', hty, hvs "text" (by decide)]

theorem normEdited_idem (e i : Option Val) :
    normEdited (normEdited e i).1 i = ((normEdited e i).1, false) := by
  by_cases he : e.isNone = true <;> by_cases hi : i.isSome = true <;>
    simp [normEdited, he, hi]

theorem normReply_idem (r p : Option Val) :
    normReply (normReply r p).1 p = ((normReply r p).1, false) := by
  by_cases hc : (r.isNone && truthyOpt p) = true
  · have hp : truthyOpt p = true := by
      simp only [Bool.and_eq_true] at hc
      exact hc.2
    simp [normReply, hc, isNone_pyGet_of_truthy p hp]
  · simp [normReply, hc]

theorem normCreatedAt_idem (c : Option Val) (now now' : String) (h : now ≠ "") :
    normCreatedAt (normCreatedAt c now).1 now' = ((normCreatedAt c now).1, false) := by
  have hnow : truthy (vstr now) = true := by simpa [truthy] using h
  rcases c with _ | v
  · simp [normCreatedAt, truthyOpt, hnow, h]
  · cases v with
    | vnull => simp [normCreatedAt, truthyOpt, truthy, hnow, h]
    | vbool b => cases b <;> simp [normCreatedAt, truthyOpt, truthy, hnow, h]
    | vnum n =>
      by_cases hn : n = 0 <;> simp [normCreatedAt, truthyOpt, truthy, hn, hnow, h]
    | vstr s =>
      by_cases hs : s = "" <;> simp [normCreatedAt, truthyOpt, truthy, hs, hnow, h]
    | vdatetime t =>
      have hiso : truthy (vstr (vdtIso t)) = true := by
        simpa [truthy] using vdtIso_ne_empty t
      simp [normCreatedAt, truthyOpt, hiso]

theorem normUpdatedAt_idem (u : Option Val) :
    normUpdatedAt (normUpdatedAt u).1 = ((normUpdatedAt u).1, false) := by
  rcases u with _ | v
  · rfl
  · cases v <;> rfl

/-- C10: `normalize_message_record` is idempotent — a second application
(at any later `utcnow` value `now'`) returns the same dict and reports
`False`.  `now ≠ ""` records that `datetime.utcnow().isoformat()` is never
the empty string. -/
theorem claim_C10_normalize_message_record_idempotent (m : MsgRec)
    (now now' : String) (h : now ≠ "") :
    normalize_message_record (normalize_message_record m now).1 now'
      = ((normalize_message_record m now).1, false) := by
  unfold normalize_message_record
  simp only [syncAlias_idem, normEdited_idem, normReply_idem,
    normCreatedAt_idem m.created_at now now' h, normUpdatedAt_idem, normTypeFields_idem,
    Bool.or_false, Bool.false_or, Bool.or_self]

/-- Witness for C10: the empty message dict, normalised at a concrete
timestamp, is unchanged by a second normalisation. -/
theorem claim_C10_normalize_message_record_idempotent_witness :
    normalize_message_record (normalize_message_record {} "2024-01-01T00:00:00").1 "x"
      = ((normalize_message_record {} "2024-01-01T00:00:00").1, false) :=
  claim_C10_normalize_message_record_idempotent {} "2024-01-01T00:00:00" "x" (by decide)

/-! ## Chat state and fan-out (`src/api/main.py`)

The in-memory stores of main.py:320-337 that the chat endpoints touch.
`users_db` maps user id to its record (the code's `u['id']` equals the
key); `conversation_messages_db` keeps dict insertion order. -/

structure UserRec : Type where
  name : String
  avatar : String
  organization_id : String
  profile_picture : Option String := none
deriving DecidableEq, Repr

structure ConvRec : Type where
  id : String
  type : String
  name : String
  participants : List String
  organization_id : String
  created_at : String
  updated_at : String
deriving DecidableEq, Repr

structure ChatState : Type where
  users_db : Dict UserRec := []
  conversations_db : Dict ConvRec := []
  conversation_messages_db : Dict MsgRec := []
  user_conversations_db : Dict (List String) := []
  active_chat_connections : ChatConnections := []
  sse_connections : Dict (List Nat) := []
deriving DecidableEq, Repr

/-- The recipient set a broadcast delivers to (returned instead of
performing network writes; a failed write would prune the connection,
which does not occur in the no-failure delivery model the claims are
about). -/
structure Delivery : Type where
  ws_recipients : List ConnInfo
  sse_recipients : List Nat
deriving DecidableEq, Repr

/-- `broadcast_to_organization(organization_id, message, exclude_websocket)`
(main.py:460-483): every websocket entry of the org except the excluded
handle, plus every SSE queue of the org (`broadcast_to_sse`,
main.py:415-431). -/
def broadcast_to_organization (s : ChatState) (organizationId : String)
    (excludeWs : Option Nat) : Delivery :=
  { ws_recipients := ((dget s.active_chat_connections organizationId).getD []).filter
      (fun c => some c.websocket ≠ excludeWs)
    sse_recipients := (dget s.sse_connections organizationId).getD [] }

/-- `broadcast_to_conversation(conversation_id, message, exclude_websocket)`
(main.py:485-505): resolve the conversation, take the first participant's
organisation, tag the message with the conversation id and delegate to the
org-wide broadcast.  `none` is the silently-dropped case (unknown
conversation, empty participant list, or unknown first participant). -/
def broadcast_to_conversation (s : ChatState) (conversationId : String)
    (excludeWs : Option Nat) : Option Delivery :=
  match dget s.conversations_db conversationId with
  | none => none
  | some conversation =>
    match conversation.participants with
    | [] => none
    | p0 :: _ =>
      match dget s.users_db p0 with
      | none => none
      | some firstUser =>
        some (broadcast_to_organization s firstUser.organization_id excludeWs)

/-- C1 (divergence witness): organisation "org1" has users A, B, C, all
three connected; conversation "conv1" has participants [A, B] only.
`broadcast_to_conversation` resolves the org from participant A and then
delivers org-wide: the delivery includes C's connection although C is not
a participant of "conv1".  Every connected participant (A, B) does
receive the event, but the claimed "zero non-participants" is violated by
the code. -/
theorem claim_C1_conversation_broadcast_reaches_nonparticipant :
    (let uA : UserRec := ⟨"Alice", "", "org1", none⟩
     let uB : UserRec := ⟨"Bob", "", "org1", none⟩
     let uC : UserRec := ⟨"Carol", "", "org1", none⟩
     let conv1 : ConvRec := ⟨"conv1", "direct", "Bob", ["A", "B"], "org1", "t0", "t0"⟩
     let s : ChatState := {
       users_db := [("A", uA), ("B", uB), ("C", uC)],
       conversations_db := [("conv1", conv1)],
       active_chat_connections := [("org1",
         [⟨1, "A", "Alice", ""⟩, ⟨2, "B", "Bob", ""⟩, ⟨3, "C", "Carol", ""⟩])] }
     (broadcast_to_conversation s "conv1" none).map
         (fun d => d.ws_recipients.map (fun c => c.user_id))
       = some ["A", "B", "C"] ∧
     "C" ∉ conv1.participants) := by
  decide

/-! ## `create_conversation` (main.py:2000-2081) -/

inductive ApiError : Type where
  | badRequest (detail : String)
  | forbidden (detail : String)
  | notFound (detail : String)
deriving DecidableEq, Repr

structure CreateConversationRequest : Type where
  id : Option String := none
  type : String
  name : Option String := none
  participants : Option (List String) := none
deriving DecidableEq, Repr

/-- Falsiness of an optional string (Python `not x` for `None` or `""`). -/
def optStrFalsy (a : Option String) : Bool :=
  match a with
  | none => true
  | some str => str = ""

/-- The participant-mapping update of main.py:2060-2064 and 937-941:
ensure each participant's conversation list exists and contains the id. -/
def updateUserConvs (d : Dict (List String)) (participants : List String)
    (convId : String) : Dict (List String) :=
  participants.foldl (fun acc pid =>
    let cur := (dget acc pid).getD []
    if convId ∈ cur then acc else dset acc pid (cur ++ [convId])) d

/-- `create_conversation` (main.py:2000-2081).  `genId` stands for the
`uuid.uuid4()` fallback, `now` for `datetime.utcnow().isoformat()`;
`currentUserId`/`currentUser` are the authenticated user's id and record.
If the requested id already exists, the existing conversation is returned
without error.  There is no unordered-pair duplicate check.  (The raised
`HTTPException`s are re-caught by the endpoint's blanket
`except Exception` and surface over HTTP as status 500; the embedding
returns the raise-site error.) -/
def create_conversation (s : ChatState) (currentUserId : String)
    (currentUser : UserRec) (request : CreateConversationRequest)
    (genId now : String) : Except ApiError (ChatState × ConvRec) :=
  let conversationId := strOr request.id genId
  match dget s.conversations_db conversationId with
  | some existing => .ok (s, existing)
  | none =>
    let participants0 := request.participants.getD []
    let participants := if currentUserId ∈ participants0 then participants0
                        else participants0 ++ [currentUserId]
    if request.type = "direct" ∧ participants.length ≠ 2 then
      .error (.badRequest "Direct conversations must have exactly 2 participants")
    else if participants.any (fun pid =>
        match dget s.users_db pid with
        | none => true
        | some participant => participant.organization_id ≠ currentUser.organization_id) then
      .error (.badRequest "Invalid participant")
    else
      let convName : Option String :=
        if request.type = "direct" ∧ optStrFalsy request.name then
          match participants.find? (fun p => p ≠ currentUserId) with
          | none => request.name
          | some otherUserId =>
            match dget s.users_db otherUserId with
            | none => request.name
            | some otherUser => some otherUser.name
        else request.name
      let conversation : ConvRec := {
        id := conversationId
        type := request.type
        name := strOr convName ("Conversation " ++ conversationId.take 8)
        participants := participants
        organization_id := currentUser.organization_id
        created_at := now
        updated_at := now }
      .ok ({ s with
          conversations_db := dset s.conversations_db conversationId conversation
          user_conversations_db :=
            updateUserConvs s.user_conversations_db participants conversationId },
        conversation)

/-- C2 counterexample: a direct conversation "c1" between A and B already
exists in org1, yet A's request to create a direct conversation with B
under the fresh id "c2" succeeds (no already-exists error) and afterwards
both "c1" and "c2" are stored direct conversations for the unordered pair
\x7bA, B\x7d. -/
theorem claim_C2_counterexample :
    (let uA : UserRec := ⟨"Alice", "", "org1", none⟩
     let uB : UserRec := ⟨"Bob", "", "org1", none⟩
     let c1 : ConvRec := ⟨"c1", "direct", "Bob", ["A", "B"], "org1", "t0", "t0"⟩
     let s : ChatState := { users_db := [("A", uA), ("B", uB)],
                            conversations_db := [("c1", c1)] }
     (create_conversation s "A" uA ⟨some "c2", "direct", none, some ["B"]⟩ "g" "t1").toOption.map
        (fun r => (r.2.id, r.2.type, r.2.participants,
          dget r.1.conversations_db "c1", (dget r.1.conversations_db "c2").isSome))
       = some ("c2", "direct", ["B", "A"], some c1, true)) := by
  decide

/-- C2 (amended): `create_conversation` deduplicates only by conversation
id.  (a) If the effective id (`request.id or uuid4()`) already exists, the
stored conversation is returned and the state is unchanged — whatever its
participants.  (b) If the effective id is fresh, a valid direct request
(two resolved same-org participants) succeeds unconditionally: no
unordered-pair check is made, and every previously stored conversation —
in particular an existing direct conversation of the same pair — is still
present afterwards, so several direct conversations per unordered pair
per organisation are reachable. -/
theorem claim_C2_create_conversation_amended (s : ChatState) (uid : String)
    (u : UserRec) (req : CreateConversationRequest) (genId now : String) :
    (∀ existing, dget s.conversations_db (strOr req.id genId) = some existing →
      create_conversation s uid u req genId now = .ok (s, existing)) ∧
    (dget s.conversations_db (strOr req.id genId) = none →
     req.type = "direct" →
     ((if uid ∈ req.participants.getD [] then req.participants.getD []
       else req.participants.getD [] ++ [uid]).length = 2 ∧
      ∀ pid ∈ (if uid ∈ req.participants.getD [] then req.participants.getD []
          else req.participants.getD [] ++ [uid]),
        ∃ pu, dget s.users_db pid = some pu ∧
          pu.organization_id = u.organization_id) →
     ∃ s' c, create_conversation s uid u req genId now = .ok (s', c) ∧
       c.id = strOr req.id genId ∧
       c.type = "direct" ∧
       c.participants = (if uid ∈ req.participants.getD [] then req.participants.getD []
         else req.participants.getD [] ++ [uid]) ∧
       dget s'.conversations_db c.id = some c ∧
       ∀ cid conv, dget s.conversations_db cid = some conv →
         dget s'.conversations_db cid = some conv) := by
  constructor
  · intro existing hex
    unfold create_conversation
    simp only [hex]
  · intro hfresh hdirect hvalid
    obtain ⟨hlen, hpart⟩ := hvalid
    have hcond1 : ¬(req.type = "direct" ∧
        (if uid ∈ req.participants.getD [] then req.participants.getD []
         else req.participants.getD [] ++ [uid]).length ≠ 2) := fun hc => hc.2 hlen
    have hany : ¬((List.any (if uid ∈ req.participants.getD [] then req.participants.getD []
          else req.participants.getD [] ++ [uid])
        (fun pid =>
          match dget s.users_db pid with
          | none => true
          | some participant => participant.organization_id ≠ u.organization_id)) = true) := by
      rw [List.any_eq_true]
      rintro ⟨pid, hpid, hbad⟩
      obtain ⟨pu, hpu, horg⟩ := hpart pid hpid
      rw [hpu] at hbad
      simp [horg] at hbad
    unfold create_conversation
    simp only [hfresh]
    refine ⟨_, _, by rw [if_neg hcond1, if_neg hany], rfl, hdirect, rfl,
      dget_dset_self _ _ _, ?_⟩
    · intro cid conv hc
      have hne : strOr req.id genId ≠ cid := by
        intro he
        rw [he, hc] at hfresh
        cases hfresh
      rw [dget_dset_ne _ _ _ _ hne]
      exact hc

/-- Witness for the amended C2: at the counterexample state (direct
conversation "c1" already pairing A and B), the fresh-id direct request
for the same pair succeeds. -/
theorem claim_C2_create_conversation_amended_witness :
    ∃ s' c, create_conversation
        ({ users_db := [("A", ⟨"Alice", "", "org1", none⟩),
                        ("B", ⟨"Bob", "", "org1", none⟩)],
           conversations_db :=
             [("c1", ⟨"c1", "direct", "Bob", ["A", "B"], "org1", "t0", "t0"⟩)] } : ChatState)
        "A" ⟨"Alice", "", "org1", none⟩ ⟨some "c2", "direct", none, some ["B"]⟩ "g" "t1"
      = .ok (s', c) := by
  obtain ⟨s', c, heq, -, -, -, -, -⟩ :=
    (claim_C2_create_conversation_amended
      { users_db := [("A", ⟨"Alice", "", "org1", none⟩),
                     ("B", ⟨"Bob", "", "org1", none⟩)],
        conversations_db :=
          [("c1", ⟨"c1", "direct", "Bob", ["A", "B"], "org1", "t0", "t0"⟩)] }
      "A" ⟨"Alice", "", "org1", none⟩
      ⟨some "c2", "direct", none, some ["B"]⟩ "g" "t1").2
      (by decide) (by decide)
      (by
        constructor
        · decide
        · intro pid hpid
          simp at hpid
          rcases hpid with h | h <;> subst h
          · exact ⟨⟨"Bob", "", "org1", none⟩, by decide, rfl⟩
          · exact ⟨⟨"Alice", "", "org1", none⟩, by decide, rfl⟩)
  exact ⟨s', c, heq⟩

/-! ## Message-store deletion (main.py:807-826) -/

/-- Whether a stored record's `id` equals `messageId` under Python `==`
(`m.get('id')`: an absent or null id never equals a string). -/
def msgIdIs (messageId : String) (m : MsgRec) : Bool :=
  pyValEq (m.id.getD vnull) (vstr messageId)

/-- `delete_conversation_message(message_id)` (main.py:807-826) acting on
the persisted message list: keep every record whose id differs; the file
is rewritten only when the list shrank (otherwise the function returns
`False` and the stored list is untouched). -/
def delete_conversation_message (msgs : List MsgRec) (messageId : String) :
    List MsgRec × Bool :=
  let remaining := msgs.filter (fun m => !msgIdIs messageId m)
  if remaining.length < msgs.length then (remaining, true) else (msgs, false)

/-- C8: if exactly one stored message has the id, deleting it reports
success, the result has exactly one message fewer, no remaining message
has the id, and the remaining messages are a sublist of the original
(same records, same relative order); deleting an id that is not present
returns the stored list unchanged with `False`. -/
theorem claim_C8_delete_conversation_message (msgs : List MsgRec) (messageId : String) :
    (msgs.countP (msgIdIs messageId) = 1 →
      (delete_conversation_message msgs messageId).2 = true ∧
      (delete_conversation_message msgs messageId).1.length + 1 = msgs.length ∧
      (∀ m ∈ (delete_conversation_message msgs messageId).1, msgIdIs messageId m = false) ∧
      List.Sublist (delete_conversation_message msgs messageId).1 msgs) ∧
    (msgs.countP (msgIdIs messageId) = 0 →
      delete_conversation_message msgs messageId = (msgs, false)) := by
  have hlenf : (msgs.filter (fun m => !msgIdIs messageId m)).length
      = msgs.length - msgs.countP (msgIdIs messageId) := by
    induction msgs with
    | nil => rfl
    | cons m t ih =>
      by_cases hm : msgIdIs messageId m = true
      · have hle : t.countP (msgIdIs messageId) ≤ t.length := List.countP_le_length _
        simp [List.countP_cons, hm, ih]
      · have hle : t.countP (msgIdIs messageId) ≤ t.length := List.countP_le_length _
        simp [List.countP_cons, hm, ih]
        all_goals omega
  constructor
  · intro hcount
    have h1 : 1 ≤ msgs.length := by
      have := List.countP_le_length (p := msgIdIs messageId) (l := msgs)
      omega
    have hlen1 : (msgs.filter (fun m => !msgIdIs messageId m)).length + 1 = msgs.length := by
      rw [hlenf, hcount]
      omega
    have hlt : (msgs.filter (fun m => !msgIdIs messageId m)).length < msgs.length := by
      omega
    have hres : delete_conversation_message msgs messageId
        = (msgs.filter (fun m => !msgIdIs messageId m), true) := by
      simp [delete_conversation_message, hlt]
    refine ⟨by rw [hres], ?_, ?_, ?_⟩
    · rw [hres]
      exact hlen1
    · intro m hm
      rw [hres] at hm
      have h2 := (List.mem_filter.mp hm).2
      simpa using h2
    · rw [hres]
      exact List.filter_sublist msgs
  · intro hcount
    have heq : msgs.filter (fun m => !msgIdIs messageId m) = msgs := by
      apply List.filter_eq_self.mpr
      intro a ha
      have := List.countP_eq_zero.mp hcount a ha
      simpa using this
    simp [delete_conversation_message, heq]

/-- Witness for C8: a three-message store; deleting "m2" removes exactly
that record and keeps the order, deleting "zz" is a no-op. -/
theorem claim_C8_delete_conversation_message_witness :
    ((delete_conversation_message
        [{ id := some (vstr "m1") }, { id := some (vstr "m2") }, { id := some (vstr "m3") }]
        "m2").2 = true ∧
     (delete_conversation_message
        [{ id := some (vstr "m1") }, { id := some (vstr "m2") }, { id := some (vstr "m3") }]
        "m2").1.length + 1 = 3 ∧
     (∀ m ∈ (delete_conversation_message
        [{ id := some (vstr "m1") }, { id := some (vstr "m2") }, { id := some (vstr "m3") }]
        "m2").1, msgIdIs "m2" m = false) ∧
     List.Sublist (delete_conversation_message
        [{ id := some (vstr "m1") }, { id := some (vstr "m2") }, { id := some (vstr "m3") }]
        "m2").1
        [{ id := some (vstr "m1") }, { id := some (vstr "m2") }, { id := some (vstr "m3") }]) ∧
    delete_conversation_message
        [{ id := some (vstr "m1") }, { id := some (vstr "m2") }, { id := some (vstr "m3") }]
        "zz"
      = ([{ id := some (vstr "m1") }, { id := some (vstr "m2") }, { id := some (vstr "m3") }],
         false) :=
  ⟨(claim_C8_delete_conversation_message
      [{ id := some (vstr "m1") }, { id := some (vstr "m2") }, { id := some (vstr "m3") }]
      "m2").1 (by decide),
   (claim_C8_delete_conversation_message
      [{ id := some (vstr "m1") }, { id := some (vstr "m2") }, { id := some (vstr "m3") }]
      "zz").2 (by decide)⟩

/-! ## WebSocket chat-message frames (main.py:2448-2543) -/

/-- `create_team_conversation(organization_id)` (main.py:914-944):
idempotent creation of `team-chat-<org>` with every org user as
participant (the stored user records' `u['id']` equals their key in
`users_db`). -/
def create_team_conversation (s : ChatState) (organizationId now : String) :
    ChatState × ConvRec :=
  let teamConvId := "team-chat-" ++ organizationId
  match dget s.conversations_db teamConvId with
  | some existing => (s, existing)
  | none =>
    let orgUsers := (s.users_db.filter
      (fun e => e.2.organization_id = organizationId)).map (fun e => e.1)
    let conversation : ConvRec := {
      id := teamConvId, type := "team", name := "Team Chat",
      participants := orgUsers, organization_id := organizationId,
      created_at := now, updated_at := now }
    ({ s with
        conversations_db := dset s.conversations_db teamConvId conversation
        user_conversations_db :=
          updateUserConvs s.user_conversations_db orgUsers teamConvId },
      conversation)

/-- One `broadcast_to_conversation` call made by a handler, with the
delivery it computes (`none` when the broadcast silently drops). -/
structure BroadcastCall : Type where
  conversationId : String
  delivery : Option Delivery
deriving DecidableEq, Repr

/-- The persist-and-fan-out tail of the `chat_message` branch
(main.py:2508-2543): check membership (silently skip otherwise), store
the raw ws message dict (note: no `message_type` key and no
normalisation on this path), bump the conversation's `updated_at`, and
broadcast to the conversation with no excluded socket. -/
def wsPostMessage (s : ChatState) (userId userName userAvatar : String)
    (conversation : ConvRec) (conversationId content msgId now : String) :
    ChatState × List BroadcastCall :=
  if userId ∈ conversation.participants then
    let message : MsgRec := {
      id := some (vstr msgId), content := some (vstr content),
      author_id := some (vstr userId), author_name := some (vstr userName),
      author_avatar := some (vstr userAvatar),
      conversation_id := some (vstr conversationId),
      created_at := some (vstr now), type := some (vstr "message") }
    let s1 := { s with
      conversation_messages_db := dset s.conversation_messages_db msgId message }
    let conversation' := { conversation with updated_at := now }
    let s2 := { s1 with
      conversations_db := dset s1.conversations_db conversationId conversation' }
    (s2, [⟨conversationId, broadcast_to_conversation s2 conversationId none⟩])
  else (s, [])

/-- The `chat_message` branch of the `websocket_chat` receive loop
(main.py:2490-2543).  `payloadConversationId = none` models an absent
`conversation_id` key (defaulted to the org team chat), `payloadContent`
an absent or string `content`; `msgId` stands for `uuid.uuid4()` and
`now` for `datetime.utcnow().isoformat()`.  Every path of this branch
falls through to the next loop iteration — the connection is never
closed here — and the returned list records the
`broadcast_to_conversation` calls made. -/
def handleChatMessageFrame (s : ChatState) (orgId userId userName userAvatar : String)
    (payloadConversationId : Option String) (payloadContent : Option String)
    (msgId now : String) : ChatState × List BroadcastCall :=
  let conversationId0 := payloadConversationId.getD ("team-chat-" ++ orgId)
  let content := pyStrip (payloadContent.getD "")
  let conversationId := if conversationId0 = "team-chat"
                        then "team-chat-" ++ orgId else conversationId0
  if content = "" then (s, [])
  else
    match dget s.conversations_db conversationId with
    | some conversation =>
      wsPostMessage s userId userName userAvatar conversation conversationId
        content msgId now
    | none =>
      if conversationId.startsWith ("team-chat-" ++ orgId) then
        let r := create_team_conversation s orgId now
        wsPostMessage r.1 userId userName userAvatar r.2 r.2.id content msgId now
      else (s, [])

theorem pyStrip_eq_empty_of_all_space (str : String)
    (h : str.data.all isPySpace = true) : pyStrip str = "" := by
  unfold pyStrip
  have h1 : str.data.dropWhile isPySpace = [] :=
    List.dropWhile_eq_nil_iff.mpr (fun x hx => List.all_eq_true.mp h x hx)
  rw [h1]
  rfl

/-- C7: an inbound `chat_message` frame whose content is absent, empty,
or whitespace-only is rejected: the state is unchanged (nothing
persisted, no `updated_at` bump) and no broadcast call is made; the
handler falls through to the next receive, so the connection stays
open. -/
theorem claim_C7_empty_content_frame_rejected (s : ChatState)
    (orgId userId userName userAvatar : String)
    (payloadConversationId : Option String) (payloadContent : Option String)
    (msgId now : String)
    (h : (payloadContent.getD "").data.all isPySpace = true) :
    handleChatMessageFrame s orgId userId userName userAvatar
      payloadConversationId payloadContent msgId now = (s, []) := by
  unfold handleChatMessageFrame
  rw [pyStrip_eq_empty_of_all_space _ h]
  simp

/-- Witness for C7: a frame with content `" \t "` sent to a state holding
one conversation changes nothing. -/
theorem claim_C7_empty_content_frame_rejected_witness :
    handleChatMessageFrame
      ({ conversations_db :=
          [("c1", ⟨"c1", "direct", "n", ["A", "B"], "org1", "t0", "t0"⟩)] } : ChatState)
      "org1" "A" "Alice" "" (some "c1") (some " \t ") "m1" "t1"
      = (({ conversations_db :=
            [("c1", ⟨"c1", "direct", "n", ["A", "B"], "org1", "t0", "t0"⟩)] } : ChatState),
         []) :=
  claim_C7_empty_content_frame_rejected _ "org1" "A" "Alice" ""
    (some "c1") (some " \t ") "m1" "t1" (by decide)

/-! ## `build_message_response`, `send_chat_message`, `get_chat_messages`
(main.py:765-805, 2138-2231, 2083-2136)

`build_message_response` first runs `normalize_message_record` on the
stored dict in place; the embedding applies it functionally (by the
idempotence results above the re-normalisation never changes an already
normalised stored record, so dropping the write-back is observationally
equivalent for the queries modelled here). -/

/-- `ConversationMessageResponse` (main.py:296-307).  Fields built with
`str(...)` in the source are `String`; fields passed through unconverted
keep their stored value. -/
structure ConversationMessageResponse : Type where
  id : String
  content : Val
  sender_id : String
  sender_name : Val
  sender_avatar : Val
  sender_profile_picture : Option Val
  conversation_id : String
  created_at : String
  message_type : String
  edited : Bool
  reply_to : Option Val
deriving DecidableEq, Repr

/-- Python `a or b` on scalar values. -/
def pyOrVal (a b : Val) : Val := if truthy a then a else b

/-- `build_message_response(message)` (main.py:765-805). -/
def build_message_response (s : ChatState) (m0 : MsgRec) (now : String) :
    ConversationMessageResponse :=
  let m := (normalize_message_record m0 now).1
  let sidv := pyOrVal ((pyGet m.sender_id).getD vnull)
      (pyOrVal ((pyGet m.author_id).getD vnull) (vstr ""))
  let snamev := pyOrVal ((pyGet m.sender_name).getD vnull)
      (pyOrVal ((pyGet m.author_name).getD vnull) (vstr ""))
  let savav := pyOrVal ((pyGet m.sender_avatar).getD vnull)
      (pyOrVal ((pyGet m.author_avatar).getD vnull) (vstr ""))
  let spp0 := pyGet m.sender_profile_picture
  let spp : Option Val :=
    if !truthyOpt spp0 && truthy sidv then
      match sidv with
      | vstr sid =>
        match dget s.users_db sid with
        | some sender => sender.profile_picture.map vstr
        | none => spp0
      | _ => spp0
    else spp0
  let ca0 := pyGet m.created_at
  let ca : Val :=
    match ca0 with
    | some (vdatetime t) => vstr (vdtIso t)
    | _ => if !truthyOpt ca0 then vstr now else ca0.getD vnull
  let edited : Bool :=
    match pyGet m.edited with
    | none => truthyOpt (pyGet m.is_edited)
    | some v => truthy v
  { id := pyStr (m.id.getD (vstr ""))
    content := m.content.getD (vstr "")
    sender_id := pyStr sidv
    sender_name := snamev
    sender_avatar := savav
    sender_profile_picture := spp
    conversation_id := pyStr (m.conversation_id.getD (vstr ""))
    created_at := pyStr ca
    message_type := pyStr (pyOrVal ((pyGet m.message_type).getD vnull) (vstr "text"))
    edited := edited
    reply_to := pyGet m.reply_to }

structure ChatMessageRequest : Type where
  content : String
  conversation_id : Option String := none
deriving DecidableEq, Repr

/-- The persist-and-respond tail of `send_chat_message` (main.py:2170-2225):
membership check (403 otherwise), build and normalise the message dict,
store it, bump the conversation's `updated_at`, build the response with
the profile-picture patch of main.py:2207-2210, and broadcast to the
conversation with no excluded socket. -/
def sendChatMessagePost (s : ChatState) (currentUserId : String)
    (currentUser : UserRec) (conversation : ConvRec)
    (conversationId content msgId now : String) :
    Except ApiError (ChatState × ConversationMessageResponse × BroadcastCall) :=
  if currentUserId ∈ conversation.participants then
    let message0 : MsgRec := {
      id := some (vstr msgId), content := some (vstr content),
      author_id := some (vstr currentUserId),
      author_name := some (vstr currentUser.name),
      author_avatar := some (vstr currentUser.avatar),
      conversation_id := some (vstr conversationId),
      created_at := some (vstr now),
      type := some (vstr "message"), message_type := some (vstr "text") }
    let message := (normalize_message_record message0 now).1
    let s1 := { s with
      conversation_messages_db := dset s.conversation_messages_db msgId message }
    let conversation' := { conversation with updated_at := now }
    let s2 := { s1 with
      conversations_db := dset s1.conversations_db conversationId conversation' }
    let resp0 := build_message_response s2 message now
    let resp :=
      if !truthyOpt resp0.sender_profile_picture
          && (match currentUser.profile_picture with
              | none => false
              | some p => p ≠ "") then
        { resp0 with sender_profile_picture := currentUser.profile_picture.map vstr }
      else resp0
    .ok (s2, resp, ⟨conversationId, broadcast_to_conversation s2 conversationId none⟩)
  else .error (.forbidden "Access denied to conversation")

/-- `send_chat_message` (main.py:2138-2231).  `msgId` stands for
`uuid.uuid4()`, `now` for `datetime.utcnow().isoformat()`. -/
def send_chat_message (s : ChatState) (currentUserId : String)
    (currentUser : UserRec) (message_data : ChatMessageRequest)
    (msgId now : String) :
    Except ApiError (ChatState × ConversationMessageResponse × BroadcastCall) :=
  let content := pyStrip message_data.content
  let conversationId0 := strOr message_data.conversation_id
      ("team-chat-" ++ currentUser.organization_id)
  let conversationId := if conversationId0 = "team-chat"
      then "team-chat-" ++ currentUser.organization_id else conversationId0
  if content = "" then .error (.badRequest "Message content is required")
  else
    match dget s.conversations_db conversationId with
    | some conversation =>
      sendChatMessagePost s currentUserId currentUser conversation conversationId
        content msgId now
    | none =>
      if conversationId.startsWith ("team-chat-" ++ currentUser.organization_id) then
        let r := create_team_conversation s currentUser.organization_id now
        sendChatMessagePost r.1 currentUserId currentUser r.2 r.2.id
          content msgId now
      else .error (.notFound "Conversation not found")

/-- The sort key of main.py:2126, `m.get('created_at', '')`.  On every
record the store holds, `created_at` is an isoformat string; a non-string
value would make Python's mixed-type sort raise, so the embedding gives
those the default key. -/
def sortKey (m : MsgRec) : String :=
  match m.created_at with
  | some (vstr t) => t
  | _ => ""

/-- Python `lst[-limit:]` for a non-negative `limit` (main.py:2127);
`lst[-0:]` is the whole list. -/
def pythonLastN {α : Type} (l : List α) (n : Nat) : List α :=
  if n = 0 then l else l.drop (l.length - n)

/-- `get_chat_messages` (main.py:2083-2136).  The ascending stable sort of
`list.sort(key=...)` is modelled by insertion sort on the key order, which
is stable; `now` is the query-time `utcnow`. -/
def get_chat_messages (s : ChatState) (currentUserId : String)
    (currentUser : UserRec) (conversation_id : Option String)
    (limit : Nat) (now : String) :
    Except ApiError (List ConversationMessageResponse) :=
  let orgId := currentUser.organization_id
  let conversationId0 := strOr conversation_id ("team-chat-" ++ orgId)
  let conversationId := if conversationId0 = "team-chat"
      then "team-chat-" ++ orgId else conversationId0
  let accessOk :=
    match dget s.conversations_db conversationId with
    | none => true
    | some conversation => currentUserId ∈ conversation.participants
  if accessOk then
    let filtered := (dvalues s.conversation_messages_db).filter (fun m =>
      pyValEq (m.conversation_id.getD vnull) (vstr conversationId)
      && (match m.author_id with
          | some (vstr aid) =>
            (match dget s.users_db aid with
             | none => false
             | some author => author.organization_id = orgId)
          | _ => false))
    let sortedMsgs := List.insertionSort (fun a b => sortKey a ≤ sortKey b) filtered
    let limited := pythonLastN sortedMsgs limit
    .ok (limited.map (fun m => build_message_response s m now))
  else .error (.forbidden "Access denied to conversation")

theorem orderedInsert_append_last {α : Type} (r : α → α → Prop) [DecidableRel r]
    (a c : α) (l : List α) (h : r a c) :
    List.orderedInsert r a (l ++ [c]) = List.orderedInsert r a l ++ [c] := by
  induction l with
  | nil => simp [List.orderedInsert, h]
  | cons b t ih =>
    by_cases hb : r a b
    · simp [List.orderedInsert, hb]
    · simp [List.orderedInsert, hb, ih]

/-- A maximal element appended last stays last under the (stable)
insertion sort. -/
theorem insertionSort_append_last {α : Type} (r : α → α → Prop) [DecidableRel r]
    (l : List α) (c : α) (h : ∀ a ∈ l, r a c) :
    List.insertionSort r (l ++ [c]) = List.insertionSort r l ++ [c] := by
  induction l with
  | nil => simp
  | cons a t ih =>
    simp only [List.cons_append, List.insertionSort, List.append_eq]
    rw [ih (fun x hx => h x (List.mem_cons_of_mem _ hx)),
      orderedInsert_append_last r a c _ (h a (List.mem_cons_self a t))]

theorem pythonLastN_concat {α : Type} (l : List α) (c : α) (n : Nat) (h : 1 ≤ n) :
    ∃ pre, pythonLastN (l ++ [c]) n = pre ++ [c] := by
  unfold pythonLastN
  have hn : ¬(n = 0) := by omega
  rw [if_neg hn]
  refine ⟨l.drop ((l ++ [c]).length - n), ?_⟩
  apply List.drop_append_of_le_length
  simp only [List.length_append, List.length_cons, List.length_nil]
  omega

/-- The query returns the appended message last: if the store's values are
`old ++ [newMsg]`, the new message matches the conversation filter, its
sort key dominates the older messages, and the caller is a participant,
then `get_chat_messages` succeeds and its last response is
`build_message_response` of the new message. -/
theorem get_chat_messages_last (st : ChatState) (uid : String) (u : UserRec)
    (cid : String) (conv2 : ConvRec) (old : List MsgRec) (newMsg : MsgRec)
    (limit : Nat) (now2 : String)
    (hcid1 : cid ≠ "") (hcid2 : cid ≠ "team-chat")
    (hconv : dget st.conversations_db cid = some conv2)
    (hmem : uid ∈ conv2.participants)
    (hvals : dvalues st.conversation_messages_db = old ++ [newMsg])
    (hpass : (pyValEq (newMsg.conversation_id.getD vnull) (vstr cid)
      && (match newMsg.author_id with
          | some (vstr aid) =>
            (match dget st.users_db aid with
             | none => false
             | some author => author.organization_id = u.organization_id)
          | _ => false)) = true)
    (hkeys : ∀ m ∈ old, sortKey m ≤ sortKey newMsg)
    (hlimit : 1 ≤ limit) :
    ∃ rs, get_chat_messages st uid u (some cid) limit now2 = .ok rs ∧
      rs.getLast? = some (build_message_response st newMsg now2) := by
  have h0 : strOr (some cid) ("team-chat-" ++ u.organization_id) = cid := by
    simp [strOr, hcid1]
  unfold get_chat_messages
  simp only [h0, if_neg hcid2, hconv, hmem, decide_True, if_true,
    hvals, List.filter_append]
  refine ⟨_, rfl, ?_⟩
  · have hfil : List.filter (fun m =>
        pyValEq (m.conversation_id.getD vnull) (vstr cid)
        && (match m.author_id with
            | some (vstr aid) =>
              (match dget st.users_db aid with
               | none => false
               | some author => author.organization_id = u.organization_id)
            | _ => false)) [newMsg] = [newMsg] := by
      simp only [List.filter_cons, List.filter_nil, hpass, if_true]
    rw [hfil]
    rw [insertionSort_append_last _ _ _ (fun a ha =>
      hkeys a (List.mem_of_mem_filter ha))]
    obtain ⟨pre, hpre⟩ := pythonLastN_concat
      (List.insertionSort (fun a b => sortKey a ≤ sortKey b)
        (List.filter _ old)) newMsg limit hlimit
    rw [hpre, List.map_append]
    simp only [List.map_cons, List.map_nil]
    exact List.getLast?_concat _

/-- The stored record `send_chat_message` produces for sender `uid` with
record `u`, stripped content `c`, conversation `cid`, message id `msgId`
and timestamp `now`: the dict of main.py:2181-2191 after
`normalize_message_record` (which adds the `sender*` aliases and
`edited = False`). -/
def sentMsgRec (uid : String) (u : UserRec) (c cid msgId now : String) : MsgRec :=
  { id := some (vstr msgId), content := some (vstr c),
    author_id := some (vstr uid), author_name := some (vstr u.name),
    author_avatar := some (vstr u.avatar),
    sender_id := some (vstr uid), sender_name := some (vstr u.name),
    sender_avatar := some (vstr u.avatar),
    conversation_id := some (vstr cid), created_at := some (vstr now),
    type := some (vstr "message"), message_type := some (vstr "text"),
    edited := some (vbool false) }

theorem normalize_sendMsg0 (uid : String) (u : UserRec) (c cid msgId now : String)
    (hnow : now ≠ "") :
    (normalize_message_record
      ({ id := some (vstr msgId), content := some (vstr c),
         author_id := some (vstr uid), author_name := some (vstr u.name),
         author_avatar := some (vstr u.avatar),
         conversation_id := some (vstr cid), created_at := some (vstr now),
         type := some (vstr "message"), message_type := some (vstr "text") } : MsgRec) now).1
      = sentMsgRec uid u c cid msgId now := by
  simp [normalize_message_record, sentMsgRec, syncAlias, normTypeFields, normEdited,
    normReply, normCreatedAt, normUpdatedAt, pyGet, truthyOpt, truthy, hnow]

theorem normalize_sentMsgRec (uid : String) (u : UserRec) (c cid msgId now t : String)
    (hnow : now ≠ "") :
    (normalize_message_record (sentMsgRec uid u c cid msgId now) t).1
      = sentMsgRec uid u c cid msgId now := by
  simp [normalize_message_record, sentMsgRec, syncAlias, normTypeFields, normEdited,
    normReply, normCreatedAt, normUpdatedAt, pyGet, truthyOpt, truthy, hnow]

theorem build_sentMsgRec_fields (st : ChatState) (uid : String) (u : UserRec)
    (c cid msgId now t : String) (hnow : now ≠ "") :
    (build_message_response st (sentMsgRec uid u c cid msgId now) t).id = msgId ∧
    (build_message_response st (sentMsgRec uid u c cid msgId now) t).content = vstr c ∧
    (build_message_response st (sentMsgRec uid u c cid msgId now) t).sender_id = uid ∧
    (build_message_response st (sentMsgRec uid u c cid msgId now) t).conversation_id = cid := by
  have hsid : pyOrVal (vstr uid) (pyOrVal (vstr uid) (vstr "")) = vstr uid := by
    by_cases h : uid = "" <;> simp [pyOrVal, truthy, h]
  unfold build_message_response
  rw [normalize_sentMsgRec uid u c cid msgId now t hnow]
  refine ⟨?_, ?_, ?_, ?_⟩ <;> simp [sentMsgRec, pyGet, pyStr, hsid]

theorem respPatch_fields (r : ConversationMessageResponse) (c : Bool) (x : Option Val) :
    ((if c then { r with sender_profile_picture := x } else r).id = r.id) ∧
    ((if c then { r with sender_profile_picture := x } else r).content = r.content) ∧
    ((if c then { r with sender_profile_picture := x } else r).sender_id = r.sender_id) ∧
    ((if c then { r with sender_profile_picture := x } else r).conversation_id
      = r.conversation_id) := by
  cases c <;> simp

/-- C9: round-trip.  An authenticated sender (`uid`, stored record `u`)
who is a participant of conversation `cid` sends a message whose stripped
content is non-empty; the send succeeds, and a subsequent
conversation-history query by the same user returns the new message last,
with `content`, `sender_id` and `conversation_id` equal to those of the
message as sent (both equal to the stripped content, the sender's id and
the conversation id).  The hypotheses state the API preconditions: the
conversation exists and is not the `"team-chat"` legacy alias, the
message id is fresh (`uuid4`), `utcnow` is a non-empty string no smaller
than every stored sort key (timestamps are monotone), and the query limit
is at least 1. -/
theorem claim_C9_send_then_fetch_roundtrip
    (s : ChatState) (uid : String) (u : UserRec) (conv : ConvRec)
    (content cid msgId now now2 : String) (limit : Nat)
    (huser : dget s.users_db uid = some u)
    (hconv : dget s.conversations_db cid = some conv)
    (hmem : uid ∈ conv.participants)
    (hcid1 : cid ≠ "")
    (hcid2 : cid ≠ "team-chat")
    (hcontent : pyStrip content ≠ "")
    (hfresh : dget s.conversation_messages_db msgId = none)
    (hnow : now ≠ "")
    (hkeys : ∀ m ∈ dvalues s.conversation_messages_db, sortKey m ≤ now)
    (hlimit : 1 ≤ limit) :
    ∃ s2 resp bc,
      send_chat_message s uid u ⟨content, some cid⟩ msgId now = .ok (s2, resp, bc) ∧
      resp.id = msgId ∧
      resp.content = vstr (pyStrip content) ∧
      resp.sender_id = uid ∧
      resp.conversation_id = cid ∧
      ∃ rs r, get_chat_messages s2 uid u (some cid) limit now2 = .ok rs ∧
        rs.getLast? = some r ∧
        r.id = msgId ∧
        r.content = vstr (pyStrip content) ∧
        r.sender_id = uid ∧
        r.conversation_id = cid := by
  have hM := normalize_sendMsg0 uid u (pyStrip content) cid msgId now hnow
  have h0 : strOr (some cid) ("team-chat-" ++ u.organization_id) = cid := by
    simp [strOr, hcid1]
  set M : MsgRec := sentMsgRec uid u (pyStrip content) cid msgId now with hMdef
  set S2 : ChatState := { s with
    conversation_messages_db := dset s.conversation_messages_db msgId M,
    conversations_db := dset s.conversations_db cid { conv with updated_at := now } }
    with hS2
  have hsend : send_chat_message s uid u ⟨content, some cid⟩ msgId now
      = .ok (S2,
        (if !truthyOpt (build_message_response S2 M now).sender_profile_picture
            && (match u.profile_picture with
                | none => false
                | some p => p ≠ "") then
          { build_message_response S2 M now with
              sender_profile_picture := u.profile_picture.map vstr }
        else build_message_response S2 M now),
        ⟨cid, broadcast_to_conversation S2 cid none⟩) := by
    rw [hS2, hMdef]
    unfold send_chat_message sendChatMessagePost
    simp only [h0, if_neg hcid2, if_neg hcontent, hconv, hmem, if_true, hM]
  refine ⟨_, _, _, hsend, ?_, ?_, ?_, ?_, ?_⟩
  · exact ((respPatch_fields _ _ _).1).trans
      (hMdef ▸ (build_sentMsgRec_fields S2 uid u (pyStrip content) cid msgId now now hnow).1)
  · exact ((respPatch_fields _ _ _).2.1).trans
      (hMdef ▸ (build_sentMsgRec_fields S2 uid u (pyStrip content) cid msgId now now hnow).2.1)
  · exact ((respPatch_fields _ _ _).2.2.1).trans
      (hMdef ▸ (build_sentMsgRec_fields S2 uid u (pyStrip content) cid msgId now now hnow).2.2.1)
  · exact ((respPatch_fields _ _ _).2.2.2).trans
      (hMdef ▸ (build_sentMsgRec_fields S2 uid u (pyStrip content) cid msgId now now hnow).2.2.2)
  · have hc : dget S2.conversations_db cid = some { conv with updated_at := now } := by
      rw [hS2]
      exact dget_dset_self _ _ _
    have hm2 : uid ∈ ({ conv with updated_at := now } : ConvRec).participants := hmem
    have hv : dvalues S2.conversation_messages_db
        = dvalues s.conversation_messages_db ++ [M] := by
      rw [hS2]
      show dvalues (dset s.conversation_messages_db msgId M) = _
      rw [dset_fresh _ _ _ hfresh]
      simp [dvalues]
    have hp : (pyValEq (M.conversation_id.getD vnull) (vstr cid)
        && (match M.author_id with
            | some (vstr aid) =>
              (match dget S2.users_db aid with
               | none => false
               | some author => author.organization_id = u.organization_id)
            | _ => false)) = true := by
      simp [hS2, hMdef, sentMsgRec, pyValEq, huser]
    have hsk : sortKey M = now := by
      simp [hMdef, sentMsgRec, sortKey]
    have hk : ∀ m ∈ dvalues s.conversation_messages_db, sortKey m ≤ sortKey M := by
      rw [hsk]
      exact hkeys
    obtain ⟨rs, hrs, hlast⟩ := get_chat_messages_last S2 uid u cid
      { conv with updated_at := now } (dvalues s.conversation_messages_db) M
      limit now2 hcid1 hcid2 hc hm2 hv hp hk hlimit
    rw [hMdef] at hlast
    exact ⟨rs, _, hrs, hlast,
      (build_sentMsgRec_fields S2 uid u (pyStrip content) cid msgId now now2 hnow).1,
      (build_sentMsgRec_fields S2 uid u (pyStrip content) cid msgId now now2 hnow).2.1,
      (build_sentMsgRec_fields S2 uid u (pyStrip content) cid msgId now now2 hnow).2.2.1,
      (build_sentMsgRec_fields S2 uid u (pyStrip content) cid msgId now now2 hnow).2.2.2⟩

/-- Witness for C9: user A sends "x" to conversation "c1" in a concrete
state and fetches it back with identical content, sender and
conversation. -/
theorem claim_C9_send_then_fetch_roundtrip_witness :
    ∃ s2 resp bc,
      send_chat_message
        ({ users_db := [("A", ⟨"Alice", "", "org1", none⟩)],
           conversations_db :=
             [("c1", ⟨"c1", "direct", "n", ["A"], "org1", "t0", "t0"⟩)] } : ChatState)
        "A" ⟨"Alice", "", "org1", none⟩ ⟨"x", some "c1"⟩ "m1" "t1" = .ok (s2, resp, bc) ∧
      resp.id = "m1" ∧
      resp.content = vstr (pyStrip "x") ∧
      resp.sender_id = "A" ∧
      resp.conversation_id = "c1" ∧
      ∃ rs r, get_chat_messages s2 "A" ⟨"Alice", "", "org1", none⟩
          (some "c1") 50 "t2" = .ok rs ∧
        rs.getLast? = some r ∧
        r.id = "m1" ∧
        r.content = vstr (pyStrip "x") ∧
        r.sender_id = "A" ∧
        r.conversation_id = "c1" :=
  claim_C9_send_then_fetch_roundtrip _ "A" ⟨"Alice", "", "org1", none⟩
    ⟨"c1", "direct", "n", ["A"], "org1", "t0", "t0"⟩ "x" "c1" "m1" "t1" "t2" 50
    (by decide) (by decide) (by decide) (by decide) (by decide) (by decide)
    (by decide) (by decide) (by decide) (by decide)
